import Mathlib

/-!
Verification of the micro-opus Ogg Opus streaming decoder core.

This file shallowly embeds the streaming state machine of
`src/ogg_opus_decoder.cpp` and the header parser of `opus_header.cpp`
(`parse_opus_head`, `is_opus_head`, `is_opus_tags`) into Lean and proves
properties of the embedding.

Modelling conventions:
* Byte buffers are `List Nat`; every read goes through `getByte`, which
  reduces modulo 256 (a `uint8_t` cell always holds a value below 256).
* `uint64_t` counters are `Nat` with an explicit `% 2 ^ 64` at each update
  that the C code performs with wrap-around semantics; `int64_t` values are
  `Int`.  The `uint8_t` page counter is kept below 256 with `% 256`.
* The two external collaborators are modelled as oracles/inputs:
  the Ogg packet source (`micro_ogg::OggDemuxer`) as a `DemuxResult` value
  handed to `decode`, together with its two side-channel Boolean queries,
  and the Opus codec as a `CodecOracle` (the values returned by
  `opus_packet_get_nb_samples` and `opus_decode`/`opus_multistream_decode`,
  plus the buffer contents the codec writes).
-/

namespace MicroOpus

/-- Result codes of `OggOpusDecoder` (enum `OggOpusResult`). -/
inductive OggOpusResult
  | ok
  | inputInvalid
  | notInitialized
  | allocationFailed
  | outputBufferTooSmall
  | decodeError
  deriving DecidableEq, Repr

/-- Result codes of the header parser (enum `OpusHeaderResult`). -/
inductive OpusHeaderResult
  | ok
  | invalidMagic
  | invalidVersion
  | tooShort
  | invalidChannels
  | invalidMapping
  deriving DecidableEq, Repr

/-- Read byte `i` of a packet; a `uint8_t` cell always holds a value `< 256`.
All reads in the C code are guarded by length checks, so the default 0 for an
out-of-range index is never observable under those guards. -/
def getByte (p : List Nat) (i : Nat) : Nat := p.getD i 0 % 256

/-- ASCII bytes of the 8-byte magic "OpusHead". -/
def opusHeadMagic : List Nat := [79, 112, 117, 115, 72, 101, 97, 100]

/-- ASCII bytes of the 8-byte magic "OpusTags". -/
def opusTagsMagic : List Nat := [79, 112, 117, 115, 84, 97, 103, 115]

/-- `is_opus_head`: 8-byte prefix comparison, false (not an error) on short input. -/
def is_opus_head (packet : List Nat) : Bool :=
  decide (8 ≤ packet.length) &&
    (List.range 8).all fun i => decide (getByte packet i = opusHeadMagic.getD i 0)

/-- `is_opus_tags`: 8-byte prefix comparison, false (not an error) on short input. -/
def is_opus_tags (packet : List Nat) : Bool :=
  decide (8 ≤ packet.length) &&
    (List.range 8).all fun i => decide (getByte packet i = opusTagsMagic.getD i 0)

/-- `read_le16`: little-endian 16-bit read at byte offset `i`. -/
def read_le16 (p : List Nat) (i : Nat) : Nat := getByte p i + 256 * getByte p (i + 1)

/-- `read_le32`: little-endian 32-bit read at byte offset `i`. -/
def read_le32 (p : List Nat) (i : Nat) : Nat :=
  getByte p i + 256 * getByte p (i + 1) + 65536 * getByte p (i + 2) +
    16777216 * getByte p (i + 3)

/-- Reinterpret a 16-bit unsigned value as the signed `int16_t` it encodes. -/
def toInt16 (n : Nat) : Int := if n < 32768 then (n : Int) else (n : Int) - 65536

/-- `struct OpusHead` (opus_header.h).  The mapping table is the full 255-byte
array. -/
structure OpusHead where
  version : Nat
  channel_count : Nat
  pre_skip : Nat
  input_sample_rate : Nat
  output_gain : Int
  channel_mapping : Nat
  stream_count : Nat
  coupled_count : Nat
  channel_mapping_table : List Nat
  deriving DecidableEq, Repr

/-- A value-initialized `OpusHead` (the decoder allocates it with
`std::make_unique<OpusHead>()`, which zero-initializes every field). -/
def OpusHead.zero : OpusHead :=
  { version := 0, channel_count := 0, pre_skip := 0, input_sample_rate := 0,
    output_gain := 0, channel_mapping := 0, stream_count := 0, coupled_count := 0,
    channel_mapping_table := List.replicate 255 0 }

/-- `parse_opus_head` (opus_header.cpp lines 70-173).  The C function mutates a
caller-provided `OpusHead&` that is zero-initialized on every reachable call
(the decoder parses at most once per session into a fresh allocation); we
return the result code together with the header contents after the call. -/
def parse_opus_head (packet : List Nat) : OpusHeaderResult × OpusHead :=
  if is_opus_head packet = false then (.invalidMagic, OpusHead.zero)
  else if packet.length < 19 then (.tooShort, OpusHead.zero)
  else
    let head0 : OpusHead :=
      { OpusHead.zero with
        version := getByte packet 8
        channel_count := getByte packet 9
        pre_skip := read_le16 packet 10
        input_sample_rate := read_le32 packet 12
        output_gain := toInt16 (read_le16 packet 16)
        channel_mapping := getByte packet 18 }
    if head0.version ≠ 1 then (.invalidVersion, head0)
    else if head0.channel_count = 0 then (.invalidChannels, head0)
    else if head0.channel_mapping ≠ 0 then
      if packet.length < 21 + head0.channel_count then (.tooShort, head0)
      else
        -- the first channel_count table cells are copied from the wire; the
        -- remaining cells keep their zero-initialized contents
        let table_wire := (List.range head0.channel_count).map fun i => getByte packet (21 + i)
        let head1 :=
          { head0 with
            stream_count := getByte packet 19
            coupled_count := getByte packet 20
            channel_mapping_table :=
              table_wire ++ List.replicate (255 - head0.channel_count) 0 }
        let total_streams := head1.stream_count + head1.coupled_count
        if table_wire.any (fun b => decide (total_streams ≤ b) && decide (b ≠ 255)) then
          (.invalidMapping, head1)
        else (family_checks head1, head1)
    else
      let head1 :=
        { head0 with
          stream_count := 1
          coupled_count := if head0.channel_count = 2 then 1 else 0
          channel_mapping_table := List.replicate 255 0 }
      (family_checks head1, head1)
where
  /-- The family-specific post-checks at the tail of `parse_opus_head`
  (opus_header.cpp lines 137-172). -/
  family_checks (head : OpusHead) : OpusHeaderResult :=
    if head.channel_mapping = 0 then
      if 2 < head.channel_count then .invalidChannels else .ok
    else if head.channel_mapping = 1 then
      if 8 < head.channel_count then .invalidChannels
      else if head.stream_count = 0 then .invalidMapping
      else if head.stream_count < head.coupled_count then .invalidMapping
      else .ok
    else
      if head.stream_count = 0 then .invalidMapping
      else if head.stream_count < head.coupled_count then .invalidMapping
      else .ok

/-! ## The streaming state machine (ogg_opus_decoder.cpp) -/

/-- The 3-state packet-dispatch machine (`enum State`). -/
inductive DecState
  | expectOpusHead
  | expectOpusTags
  | decoding
  deriving DecidableEq, Repr

/-- Which codec handle is live: the source keeps two mutually exclusive
pointers `opus_decoder_` / `opus_ms_decoder_`, both null before creation. -/
inductive CodecHandle
  | noCodec
  | monoCodec
  | msCodec
  deriving DecidableEq, Repr

/-- RFC 7845 Section 3 bound enforced on audio packets. -/
def max_opus_packet_size : Nat := 61440

/-- RFC 7845 Section 5.2 ceiling on the accumulated OpusTags size. -/
def max_opus_tags_size : Nat := 125829120

/-- RFC 7845 Section 5.2 minimum OpusTags size. -/
def min_opus_tags_size : Nat := 16

/-- The mutable members of `OggOpusDecoder` (ogg_opus_decoder.h).  The two
codec pointers are folded into `codec`; `enable_crc_` only configures the
external demuxer. -/
structure Decoder where
  state : DecState
  enable_crc : Bool
  sample_rate : Nat              -- uint32_t configuration value
  channels : Nat                 -- uint8_t configured override (0 = use stream's)
  output_channels : Nat          -- uint8_t, resolved after OpusHead parsing
  opus_head : Option OpusHead    -- lazily allocated, parsed once per session
  codec : CodecHandle
  samples_decoded_total : Nat    -- uint64_t, updated mod 2 ^ 64
  last_granule_position : Int    -- int64_t
  opus_tags_accumulated_size : Nat  -- size_t
  last_required_buffer_bytes : Nat  -- size_t
  first_audio_page_samples : Int -- int64_t, -1 = not yet on first audio page
  pre_skip_applied : Bool
  has_seen_opus_head : Bool
  has_seen_opus_tags : Bool
  packets_on_current_page : Nat  -- uint8_t, kept below 256
  eos_seen : Bool
  expect_continued_packet : Bool
  previous_packet_was_last_on_page : Bool
  deriving DecidableEq, Repr

/-- The constructor `OggOpusDecoder(enable_crc, sample_rate, channels)`:
all other members get their in-class default initializers. -/
def mkDecoder (enable_crc : Bool) (sample_rate : Nat) (channels : Nat) : Decoder :=
  { state := .expectOpusHead, enable_crc := enable_crc, sample_rate := sample_rate,
    channels := channels, output_channels := 0, opus_head := none, codec := .noCodec,
    samples_decoded_total := 0, last_granule_position := 0,
    opus_tags_accumulated_size := 0, last_required_buffer_bytes := 0,
    first_audio_page_samples := -1, pre_skip_applied := false,
    has_seen_opus_head := false, has_seen_opus_tags := false,
    packets_on_current_page := 0, eos_seen := false,
    expect_continued_packet := false, previous_packet_was_last_on_page := true }

/-- `OggOpusDecoder::reset()` (lines 410-443): releases the codec and the
header, returns to the initial dispatch state, but preserves the configured
`sample_rate_` and `channels_`. -/
def Decoder.reset (st : Decoder) : Decoder :=
  { st with
    codec := .noCodec, opus_head := none, state := .expectOpusHead,
    output_channels := 0, samples_decoded_total := 0, pre_skip_applied := false,
    last_granule_position := 0, last_required_buffer_bytes := 0,
    has_seen_opus_head := false, has_seen_opus_tags := false,
    opus_tags_accumulated_size := 0, packets_on_current_page := 0,
    first_audio_page_samples := -1, eos_seen := false,
    expect_continued_packet := false, previous_packet_was_last_on_page := true }

/-- `OggOpusDecoder::is_initialized()` (lines 494-496). -/
def Decoder.is_initialized (st : Decoder) : Bool :=
  decide (st.state = DecState.decoding)

/-- A complete logical packet as delivered by the external demuxer
(`micro_ogg::OggPacket`): its `length` field is `data.length`. -/
structure OggPacket where
  data : List Nat
  granule_position : Int         -- int64_t
  is_bos : Bool
  is_eos : Bool
  is_last_on_page : Bool
  deriving DecidableEq, Repr

/-- The demuxer outcome of one `getNextPacket` call, with the
`bytes_consumed` it reports (the demuxer is an external collaborator; its
outcome is an input of the model). -/
inductive DemuxResult
  | needMoreData (bytes_consumed : Nat)
  | skipped (bytes_consumed : Nat)
  | packet (pkt : OggPacket) (bytes_consumed : Nat)
  | demuxError (bytes_consumed : Nat)
  deriving DecidableEq, Repr

/-- The external Opus codec's behaviour on the current packet:
the value `opus_packet_get_nb_samples` returns, the value
`opus_decode`/`opus_multistream_decode` returns (samples or a negative
error), and the buffer contents the codec call leaves in the output. -/
structure CodecOracle where
  nb_samples : Int
  decode_result : Int
  decoded_output : List Int
  deriving DecidableEq, Repr

/-- `OggOpusDecoder::update_page_tracking` (lines 111-120).  `prevEnded` is
the demuxer query `previousPageEndedWithContinuedPacket()`.  The counter is a
`uint8_t`, hence the `% 256` on the increment. -/
def update_page_tracking (st : Decoder) (is_last_on_page prevEnded : Bool) : Decoder :=
  let st := { st with packets_on_current_page := (st.packets_on_current_page + 1) % 256 }
  if is_last_on_page then
    { st with
      packets_on_current_page := 0,
      expect_continued_packet := prevEnded,
      previous_packet_was_last_on_page := true }
  else
    { st with previous_packet_was_last_on_page := false }

/-- The `(uint64_t)granule_pos` conversion (two's complement, mod `2 ^ 64`). -/
def uint64_of_int64 (g : Int) : Nat := (g % (2 ^ 64 : Int)).toNat

/-- The tail of `validate_granule_position` (lines 141-148): the monotonicity
check against the last recorded granule position, then the update. -/
def finish_granule (st : Decoder) (granule_pos : Int) : OggOpusResult × Decoder :=
  if 0 < st.last_granule_position ∧ granule_pos < st.last_granule_position then
    (.inputInvalid, st)
  else (.ok, { st with last_granule_position := granule_pos })

/-- `OggOpusDecoder::validate_granule_position` (lines 122-150). -/
def validate_granule_position (st : Decoder) (granule_pos : Int) (decoded_samples : Nat)
    (is_eos is_last_on_page : Bool) : OggOpusResult × Decoder :=
  if 0 < granule_pos ∧ uint64_of_int64 granule_pos ≠ 2 ^ 64 - 1 then
    let st :=
      if st.first_audio_page_samples = -1 ∧ st.last_granule_position = 0 then
        { st with first_audio_page_samples := 0 }
      else st
    if 0 ≤ st.first_audio_page_samples then
      let st :=
        { st with
          first_audio_page_samples :=
            st.first_audio_page_samples + (decoded_samples : Int) }
      if is_last_on_page then
        if is_eos = false ∧ granule_pos < st.first_audio_page_samples then
          (.inputInvalid, st)
        else finish_granule { st with first_audio_page_samples := -1 } granule_pos
      else finish_granule st granule_pos
    else finish_granule st granule_pos
  else (.ok, st)

/-- `OggOpusDecoder::apply_pre_skip` (lines 337-383).  The buffer `output` is
the decoded PCM; the `memmove` of the straddling case keeps the cells beyond
`keep_count * output_channels` untouched.  Reachable calls always have the
header allocated (`opus_head_` is set before the machine enters the decoding
state), so the `getD` default is never observable. -/
def apply_pre_skip (st : Decoder) (output : List Int) (decoded_samples output_channels : Nat) :
    OggOpusResult × Decoder × List Int × Nat :=
  let pre_skip := (st.opus_head.getD OpusHead.zero).pre_skip
  if st.pre_skip_applied = false ∧ 0 < pre_skip then
    if st.sample_rate ≠ 8000 ∧ st.sample_rate ≠ 12000 ∧ st.sample_rate ≠ 16000 ∧
        st.sample_rate ≠ 24000 ∧ st.sample_rate ≠ 48000 then
      (.inputInvalid, st, output, 0)
    else
      let pre_skip_at_sample_rate := pre_skip * st.sample_rate / 48000
      if (st.samples_decoded_total + decoded_samples) % 2 ^ 64 ≤ pre_skip_at_sample_rate then
        -- entire frame is within the pre-skip range
        (.ok,
         { st with
           samples_decoded_total := (st.samples_decoded_total + decoded_samples) % 2 ^ 64 },
         output, 0)
      else if st.samples_decoded_total < pre_skip_at_sample_rate then
        -- partial frame needs to be skipped
        let skip_count := pre_skip_at_sample_rate - st.samples_decoded_total
        if decoded_samples < skip_count then (.inputInvalid, st, output, 0)
        else
          let keep_count := decoded_samples - skip_count
          (.ok,
           { st with
             samples_decoded_total := (st.samples_decoded_total + decoded_samples) % 2 ^ 64,
             pre_skip_applied := true },
           (output.drop (skip_count * output_channels)).take (keep_count * output_channels)
             ++ output.drop (keep_count * output_channels),
           keep_count)
      else
        (.ok,
         { st with
           samples_decoded_total := (st.samples_decoded_total + decoded_samples) % 2 ^ 64,
           pre_skip_applied := true },
         output, decoded_samples)
  else
    (.ok,
     { st with
       samples_decoded_total := (st.samples_decoded_total + decoded_samples) % 2 ^ 64 },
     output, decoded_samples)

/-- `OggOpusDecoder::handle_opus_head_packet` (lines 181-228).  `createFails`
models the external codec constructor failing (`opus_decoder_create` /
`opus_multistream_decoder_create` returning an error). -/
def handle_opus_head_packet (st : Decoder) (packet_data : List Nat) (granule_pos : Int)
    (is_bos is_last_on_page : Bool) (createFails : Bool) (prevEnded : Bool) :
    OggOpusResult × Decoder :=
  if is_bos = false ∨ is_opus_head packet_data = false then (.inputInvalid, st)
  else if st.has_seen_opus_head then (.inputInvalid, st)
  else
    let st := { st with has_seen_opus_head := true }
    if is_last_on_page ∧ st.packets_on_current_page ≠ 0 then (.inputInvalid, st)
    else
      let st := update_page_tracking st is_last_on_page prevEnded
      let parsed := parse_opus_head packet_data
      let st := { st with opus_head := some parsed.2 }
      if parsed.1 ≠ .ok then (.inputInvalid, st)
      else if granule_pos ≠ 0 then (.inputInvalid, st)
      else
        let st :=
          { st with
            output_channels :=
              if st.channels ≠ 0 then st.channels else parsed.2.channel_count }
        -- create_opus_decoder (lines 152-179): mono path for mapping family 0,
        -- multistream path otherwise
        if createFails then (.allocationFailed, st)
        else
          let st :=
            { st with
              codec :=
                if parsed.2.channel_mapping = 0 then CodecHandle.monoCodec
                else CodecHandle.msCodec }
          (.ok, { st with state := .expectOpusTags })

/-- `OggOpusDecoder::handle_opus_tags_packet` (lines 230-267). -/
def handle_opus_tags_packet (st : Decoder) (packet_data : List Nat) (granule_pos : Int)
    (is_last_on_page : Bool) (prevEnded : Bool) : OggOpusResult × Decoder :=
  if is_opus_tags packet_data = false then (.inputInvalid, st)
  else if st.has_seen_opus_tags then (.inputInvalid, st)
  else
    let st := { st with has_seen_opus_tags := true }
    let st :=
      { st with
        opus_tags_accumulated_size := st.opus_tags_accumulated_size + packet_data.length }
    if max_opus_tags_size < st.opus_tags_accumulated_size then (.inputInvalid, st)
    else if packet_data.length < min_opus_tags_size then (.inputInvalid, st)
    else if is_last_on_page ∧ st.packets_on_current_page ≠ 0 then (.inputInvalid, st)
    else if is_last_on_page ∧ granule_pos ≠ 0 then (.inputInvalid, st)
    else
      let st := update_page_tracking st is_last_on_page prevEnded
      (.ok, { st with state := .decoding })

/-- The outcome of one audio-packet (or whole-decode) step: result code,
decoder state after the call, output-buffer contents, and the
`samples_decoded` out-parameter. -/
structure AudioOut where
  result : OggOpusResult
  st : Decoder
  output : List Int
  samples_decoded : Nat
  deriving DecidableEq, Repr

/-- `OggOpusDecoder::handle_audio_packet` (lines 269-335).  The packet bytes
themselves are consumed only by the external codec, so only `packet_len`
appears; `co` carries the codec's behaviour on this packet.  On the
`decodeError` path the buffer contents are whatever the failed codec call
left (`co.decoded_output`). -/
def handle_audio_packet (st : Decoder) (packet_len : Nat) (granule_pos : Int)
    (is_eos is_last_on_page : Bool) (output : List Int) (output_size : Nat)
    (co : CodecOracle) (prevEnded : Bool) : AudioOut :=
  let st := if is_eos then { st with eos_seen := true } else st
  if packet_len = 0 then ⟨.inputInvalid, st, output, 0⟩
  else if max_opus_packet_size < packet_len then ⟨.inputInvalid, st, output, 0⟩
  else
    let st :=
      if 0 < co.nb_samples then
        { st with
          last_required_buffer_bytes := co.nb_samples.toNat * st.output_channels * 2 }
      else st
    if 0 < co.nb_samples ∧ output_size < co.nb_samples.toNat * st.output_channels * 2 then
      ⟨.outputBufferTooSmall, st, output, 0⟩
    else if st.codec = CodecHandle.noCodec then ⟨.notInitialized, st, output, 0⟩
    else if co.decode_result < 0 then ⟨.decodeError, st, co.decoded_output, 0⟩
    else
      let decoded_samples := co.decode_result.toNat
      let st := update_page_tracking st is_last_on_page prevEnded
      let validated := validate_granule_position st granule_pos decoded_samples
        is_eos is_last_on_page
      if validated.1 ≠ .ok then ⟨validated.1, validated.2, co.decoded_output, 0⟩
      else
        let trimmed := apply_pre_skip validated.2 co.decoded_output decoded_samples
          validated.2.output_channels
        ⟨trimmed.1, trimmed.2.1, trimmed.2.2.1, trimmed.2.2.2⟩

/-- `OggOpusDecoder::process_packet` (lines 72-109).  `pageFlag` is the
demuxer query `currentPageHasContinuedFlag()`. -/
def process_packet (st : Decoder) (pkt : OggPacket) (output : List Int) (output_size : Nat)
    (pageFlag prevEnded : Bool) (createFails : Bool) (co : CodecOracle) : AudioOut :=
  if st.packets_on_current_page = 0 ∧ pageFlag ≠ st.expect_continued_packet then
    ⟨.inputInvalid, st, output, 0⟩
  else
    match st.state with
    | .expectOpusHead =>
      let r := handle_opus_head_packet st pkt.data pkt.granule_position pkt.is_bos
        pkt.is_last_on_page createFails prevEnded
      ⟨r.1, r.2, output, 0⟩
    | .expectOpusTags =>
      let r := handle_opus_tags_packet st pkt.data pkt.granule_position
        pkt.is_last_on_page prevEnded
      ⟨r.1, r.2, output, 0⟩
    | .decoding =>
      handle_audio_packet st pkt.data.length pkt.granule_position pkt.is_eos
        pkt.is_last_on_page output output_size co prevEnded

/-- The outcome of one `decode` call: result code, decoder state after the
call, the two out-parameters, and the output-buffer contents. -/
structure DecodeOut where
  result : OggOpusResult
  st : Decoder
  bytes_consumed : Nat
  samples_decoded : Nat
  output : List Int
  deriving DecidableEq, Repr

/-- `OggOpusDecoder::decode` (lines 498-649).  `input_null` / `output_null`
model the pointer checks; `resp` is the outcome of the demuxer's
`getNextPacket` on this call's input.  The C code leaves the two
out-parameters unassigned on the returns before line 582; we report 0 there
(no claim depends on those values). -/
def decode (st : Decoder) (input_null output_null : Bool) (output : List Int)
    (output_size : Nat) (resp : DemuxResult) (pageFlag prevEnded : Bool)
    (createFails : Bool) (co : CodecOracle) : DecodeOut :=
  if input_null then ⟨.inputInvalid, st, 0, 0, output⟩
  else if st.state = DecState.decoding ∧ output_null then ⟨.inputInvalid, st, 0, 0, output⟩
  else if st.state = DecState.decoding ∧ output_size = 0 then
    ⟨.outputBufferTooSmall, st, 0, 0, output⟩
  else if st.eos_seen then ⟨.inputInvalid, st, 0, 0, output⟩
  else
    match resp with
    | .needMoreData n => ⟨.ok, st, n, 0, output⟩
    | .skipped n =>
      if st.state = DecState.expectOpusTags then
        ⟨.ok, { st with has_seen_opus_tags := true, state := .decoding }, n, 0, output⟩
      else ⟨.ok, st, n, 0, output⟩
    | .packet pkt n =>
      let r := process_packet st pkt output output_size pageFlag prevEnded createFails co
      ⟨r.result, r.st, n, r.samples_decoded, r.output⟩
    | .demuxError n => ⟨.inputInvalid, st, n, 0, output⟩

/-! ## Concrete fixtures for the concrete-scenario claims and witnesses -/

/-- The identification header of the spec's concrete scenario. -/
def scenarioHeadPacket : List Nat :=
  [79, 112, 117, 115, 72, 101, 97, 100, 1, 2, 56, 1, 0, 0, 0, 0, 0, 0, 0]

/-- A decoder in the decoding state for the spec's concrete scenario. -/
def scenarioDecoder : Decoder :=
  { mkDecoder false 48000 0 with
    state := .decoding, opus_head := some (parse_opus_head scenarioHeadPacket).2,
    codec := .monoCodec, output_channels := 2 }

/-- A decoder in the decoding state used for concrete checks. -/
def cexDecoder : Decoder :=
  { mkDecoder false 48000 0 with
    state := .decoding, opus_head := some OpusHead.zero,
    codec := .monoCodec, output_channels := 2 }

/-- A 1-byte audio packet carrying the EOS flag. -/
def cexPacketEos : OggPacket := ⟨[0], 960, false, true, false⟩

/-- A 1-byte audio packet without the EOS flag. -/
def cexPacketNoEos : OggPacket := ⟨[0], 960, false, false, false⟩

/-- Codec behaviour for the concrete checks: 960 samples expected and decoded. -/
def cexOracle : CodecOracle := ⟨960, 960, []⟩

/-! ## Theorems -/

/-- C5 -/
theorem parse_opus_head_check_order (packet : List Nat) :
    (is_opus_head packet = false → (parse_opus_head packet).1 = .invalidMagic) ∧
    (is_opus_head packet = true → packet.length < 19 →
      (parse_opus_head packet).1 = .tooShort) ∧
    (is_opus_head packet = true → 19 ≤ packet.length → getByte packet 8 ≠ 1 →
      (parse_opus_head packet).1 = .invalidVersion) ∧
    (is_opus_head packet = true → 19 ≤ packet.length → getByte packet 8 = 1 →
      getByte packet 9 = 0 → (parse_opus_head packet).1 = .invalidChannels) ∧
    (is_opus_head packet = true → 19 ≤ packet.length → getByte packet 8 = 1 →
      getByte packet 9 ≠ 0 → getByte packet 18 ≠ 0 →
      packet.length < 21 + getByte packet 9 → (parse_opus_head packet).1 = .tooShort) ∧
    (is_opus_head packet = true → 19 ≤ packet.length → getByte packet 8 = 1 →
      getByte packet 9 ≠ 0 → getByte packet 18 ≠ 0 →
      21 + getByte packet 9 ≤ packet.length →
      (∃ i, i < getByte packet 9 ∧
        getByte packet 19 + getByte packet 20 ≤ getByte packet (21 + i) ∧
        getByte packet (21 + i) ≠ 255) →
      (parse_opus_head packet).1 = .invalidMapping) := by
  refine ⟨?_, ?_, ?_, ?_, ?_, ?_⟩
  · intro h; simp [parse_opus_head, h]
  · intro h1 h2; simp [parse_opus_head, h1, h2]
  · intro h1 h2 h3; simp [parse_opus_head, h1, h2, h3, Nat.not_lt.mpr h2]
  · intro h1 h2 h3 h4
    simp [parse_opus_head, h1, h2, h3, h4, Nat.not_lt.mpr h2]
  · intro h1 h2 h3 h4 h5 h6
    simp [parse_opus_head, h1, h2, h3, h4, h5, h6, Nat.not_lt.mpr h2]
  · intro h1 h2 h3 h4 h5 h6 hbad
    have hlt : ¬ packet.length < 21 + getByte packet 9 := Nat.not_lt.mpr h6
    have hany : ((List.range (getByte packet 9)).map fun i => getByte packet (21 + i)).any
        (fun b => decide (getByte packet 19 + getByte packet 20 ≤ b) && decide (b ≠ 255))
        = true := by
      rcases hbad with ⟨i, hi, hle, hne⟩
      simp only [List.any_eq_true, List.mem_map, List.mem_range]
      exact ⟨getByte packet (21 + i), ⟨i, hi, rfl⟩, by simp [hle, hne]⟩
    simp [parse_opus_head, h1, h2, h3, h4, h5, hlt, hany, Nat.not_lt.mpr h2]
    rw [if_pos hbad]

/-- C5 witness -/
theorem parse_opus_head_check_order_witness :
    (parse_opus_head [0]).1 = .invalidMagic ∧
    (parse_opus_head opusHeadMagic).1 = .tooShort ∧
    (parse_opus_head (opusHeadMagic ++ [2, 1, 0, 0, 0, 0, 0, 0, 0, 0, 0])).1
      = .invalidVersion ∧
    (parse_opus_head (opusHeadMagic ++ [1, 0, 0, 0, 0, 0, 0, 0, 0, 0, 0])).1
      = .invalidChannels ∧
    (parse_opus_head (opusHeadMagic ++ [1, 1, 0, 0, 0, 0, 0, 0, 0, 0, 1])).1
      = .tooShort ∧
    (parse_opus_head (opusHeadMagic ++ [1, 1, 0, 0, 0, 0, 0, 0, 0, 0, 1, 1, 0, 5])).1
      = .invalidMapping :=
  ⟨(parse_opus_head_check_order _).1 (by decide),
   (parse_opus_head_check_order _).2.1 (by decide) (by decide),
   (parse_opus_head_check_order _).2.2.1 (by decide) (by decide) (by decide),
   (parse_opus_head_check_order _).2.2.2.1 (by decide) (by decide) (by decide) (by decide),
   (parse_opus_head_check_order _).2.2.2.2.1 (by decide) (by decide) (by decide)
     (by decide) (by decide) (by decide),
   (parse_opus_head_check_order _).2.2.2.2.2 (by decide) (by decide) (by decide)
     (by decide) (by decide) (by decide) ⟨0, by decide, by decide, by decide⟩⟩

/-- The family-0 evaluation of `parse_opus_head` once the generic checks pass. -/
theorem parse_opus_head_family0 (packet : List Nat)
    (h1 : is_opus_head packet = true) (h2 : 19 ≤ packet.length)
    (h3 : getByte packet 8 = 1) (h4 : getByte packet 9 ≠ 0)
    (hfam : getByte packet 18 = 0) :
    parse_opus_head packet =
      ((if 2 < getByte packet 9 then OpusHeaderResult.invalidChannels else .ok),
        { version := 1, channel_count := getByte packet 9,
          pre_skip := read_le16 packet 10, input_sample_rate := read_le32 packet 12,
          output_gain := toInt16 (read_le16 packet 16), channel_mapping := 0,
          stream_count := 1,
          coupled_count := if getByte packet 9 = 2 then 1 else 0,
          channel_mapping_table := List.replicate 255 0 }) := by
  simp only [parse_opus_head, parse_opus_head.family_checks, h1, h3, h4, hfam,
    Nat.not_lt.mpr h2, Bool.true_eq_false, if_false, ite_false, ne_eq,
    not_true_eq_false, not_false_eq_true, ite_true]

/-- C7 -/
theorem parse_family0_derived (packet : List Nat) :
    (∀ head, getByte packet 18 = 0 → parse_opus_head packet = (.ok, head) →
      head.stream_count = 1 ∧
      head.coupled_count = (if head.channel_count = 2 then 1 else 0) ∧
      head.channel_mapping_table = List.replicate 255 0 ∧
      head.channel_count ≤ 2) ∧
    (is_opus_head packet = true → 19 ≤ packet.length → getByte packet 8 = 1 →
      getByte packet 9 ≠ 0 → getByte packet 18 = 0 → 2 < getByte packet 9 →
      (parse_opus_head packet).1 = .invalidChannels) := by
  constructor
  · intro head hfam hok
    have h1 : is_opus_head packet = true := by
      by_contra h
      have h' : is_opus_head packet = false := by
        cases hx : is_opus_head packet
        · rfl
        · exact absurd hx h
      simp [parse_opus_head, h'] at hok
    have h2 : 19 ≤ packet.length := by
      by_contra h
      simp [parse_opus_head, h1, Nat.lt_of_not_le h] at hok
    have h3 : getByte packet 8 = 1 := by
      by_contra h
      simp [parse_opus_head, h1, h, Nat.not_lt.mpr h2] at hok
    have h4 : getByte packet 9 ≠ 0 := by
      intro h
      simp [parse_opus_head, h1, h3, h, Nat.not_lt.mpr h2] at hok
    rw [parse_opus_head_family0 packet h1 h2 h3 h4 hfam] at hok
    by_cases h5 : 2 < getByte packet 9
    · rw [if_pos h5] at hok
      exact absurd (congrArg Prod.fst hok) (by simp)
    · rw [if_neg h5, Prod.mk.injEq] at hok
      obtain ⟨-, hh⟩ := hok
      subst hh
      exact ⟨rfl, rfl, rfl, Nat.not_lt.mp h5⟩
  · intro h1 h2 h3 h4 h5 h6
    rw [parse_opus_head_family0 packet h1 h2 h3 h4 h5, if_pos h6]

set_option maxRecDepth 4000 in
/-- C7 witness -/
theorem parse_family0_derived_witness :
    ((parse_opus_head scenarioHeadPacket).2.stream_count = 1 ∧
      (parse_opus_head scenarioHeadPacket).2.coupled_count =
        (if (parse_opus_head scenarioHeadPacket).2.channel_count = 2 then 1 else 0) ∧
      (parse_opus_head scenarioHeadPacket).2.channel_mapping_table =
        List.replicate 255 0 ∧
      (parse_opus_head scenarioHeadPacket).2.channel_count ≤ 2) ∧
    (parse_opus_head (opusHeadMagic ++ [1, 3, 0, 0, 0, 0, 0, 0, 0, 0, 0])).1
      = .invalidChannels :=
  ⟨(parse_family0_derived scenarioHeadPacket).1 _ (by decide) (by decide),
   (parse_family0_derived _).2 (by decide) (by decide) (by decide) (by decide)
     (by decide) (by decide)⟩

/-- C2 -/
theorem apply_pre_skip_cases (st : Decoder) (head : OpusHead) (output : List Int)
    (decoded channels scaled : Nat)
    (hhead : st.opus_head = some head)
    (hlatch : st.pre_skip_applied = false) (hpre : 0 < head.pre_skip)
    (hdec : 0 < decoded)
    (hbound : st.samples_decoded_total + decoded < 2 ^ 64)
    (hscaled : scaled = head.pre_skip * st.sample_rate / 48000) :
    ((st.sample_rate ≠ 8000 ∧ st.sample_rate ≠ 12000 ∧ st.sample_rate ≠ 16000 ∧
        st.sample_rate ≠ 24000 ∧ st.sample_rate ≠ 48000) →
      apply_pre_skip st output decoded channels = (.inputInvalid, st, output, 0)) ∧
    ((st.sample_rate = 8000 ∨ st.sample_rate = 12000 ∨ st.sample_rate = 16000 ∨
        st.sample_rate = 24000 ∨ st.sample_rate = 48000) →
      ((st.samples_decoded_total + decoded ≤ scaled →
         apply_pre_skip st output decoded channels =
           (.ok,
            { st with samples_decoded_total := st.samples_decoded_total + decoded },
            output, 0)) ∧
       (st.samples_decoded_total < scaled → scaled < st.samples_decoded_total + decoded →
         apply_pre_skip st output decoded channels =
           (.ok,
            { st with
              samples_decoded_total := st.samples_decoded_total + decoded,
              pre_skip_applied := true },
            (output.drop ((scaled - st.samples_decoded_total) * channels)).take
                ((decoded - (scaled - st.samples_decoded_total)) * channels)
              ++ output.drop ((decoded - (scaled - st.samples_decoded_total)) * channels),
            decoded - (scaled - st.samples_decoded_total))) ∧
       (scaled ≤ st.samples_decoded_total →
         apply_pre_skip st output decoded channels =
           (.ok,
            { st with
              samples_decoded_total := st.samples_decoded_total + decoded,
              pre_skip_applied := true },
            output, decoded)))) := by
  have hmod : (st.samples_decoded_total + decoded) % 18446744073709551616 =
      st.samples_decoded_total + decoded := by omega
  subst hscaled
  refine ⟨?_, fun hrate => ⟨?_, ?_, ?_⟩⟩
  · intro hbadrate
    simp [apply_pre_skip, hhead, hlatch, hpre, hbadrate]
  · intro hcase
    simp [apply_pre_skip, hhead, hlatch, hpre, hmod, hcase]
    rcases hrate with h | h | h | h | h <;> simp [h]
  · intro hc1 hc2
    have hnot : ¬ (st.samples_decoded_total + decoded ≤
        head.pre_skip * st.sample_rate / 48000) := by omega
    have hskip : ¬ (decoded <
        head.pre_skip * st.sample_rate / 48000 - st.samples_decoded_total) := by omega
    simp [apply_pre_skip, hhead, hlatch, hpre, hmod, hnot, hc1, hskip]
    rcases hrate with h | h | h | h | h <;> simp [h]
  · intro hc
    have hnot : ¬ (st.samples_decoded_total + decoded ≤
        head.pre_skip * st.sample_rate / 48000) := by omega
    have hnot2 : ¬ (st.samples_decoded_total <
        head.pre_skip * st.sample_rate / 48000) := by omega
    simp [apply_pre_skip, hhead, hlatch, hpre, hmod, hnot, hnot2]
    rcases hrate with h | h | h | h | h <;> simp [h]

/-- C2 witness -/
theorem apply_pre_skip_cases_witness :
    apply_pre_skip scenarioDecoder [] 100 2 =
      (.ok, { scenarioDecoder with samples_decoded_total := 100 }, [], 0) :=
  ((apply_pre_skip_cases scenarioDecoder (parse_opus_head scenarioHeadPacket).2 [] 100 2
      312 rfl rfl (by decide) (by decide) (by decide) (by decide)).2 (by decide)).1
    (by decide)

/-- C6 -/
theorem pre_skip_concrete_scenario (output : List Int) :
    (parse_opus_head scenarioHeadPacket).1 = .ok ∧
    (parse_opus_head scenarioHeadPacket).2.pre_skip = 312 ∧
    (parse_opus_head scenarioHeadPacket).2.channel_mapping = 0 ∧
    apply_pre_skip scenarioDecoder output 960 2 =
      (.ok,
       { scenarioDecoder with samples_decoded_total := 960, pre_skip_applied := true },
       (output.drop 624).take 1296 ++ output.drop 1296, 648) := by
  refine ⟨by decide, by decide, by decide, ?_⟩
  rfl

/-- C10 -/
theorem pre_skip_defensive_branch_unreachable (st : Decoder) (head : OpusHead)
    (output : List Int) (decoded channels scaled : Nat)
    (hhead : st.opus_head = some head)
    (hlatch : st.pre_skip_applied = false) (hpre : 0 < head.pre_skip)
    (hrate : st.sample_rate = 8000 ∨ st.sample_rate = 12000 ∨ st.sample_rate = 16000 ∨
      st.sample_rate = 24000 ∨ st.sample_rate = 48000)
    (hscaled : scaled = head.pre_skip * st.sample_rate / 48000)
    (hstraddle : scaled < st.samples_decoded_total + decoded)
    (hbelow : st.samples_decoded_total < scaled) :
    scaled - st.samples_decoded_total < decoded ∧
    (apply_pre_skip st output decoded channels).1 = .ok := by
  subst hscaled
  have hratec : ¬ (st.sample_rate ≠ 8000 ∧ st.sample_rate ≠ 12000 ∧ st.sample_rate ≠ 16000 ∧
      st.sample_rate ≠ 24000 ∧ st.sample_rate ≠ 48000) := by omega
  have hskip : ¬ (decoded < head.pre_skip * st.sample_rate / 48000 -
      st.samples_decoded_total) := by omega
  refine ⟨by omega, ?_⟩
  simp [apply_pre_skip, hhead, hlatch, hpre, hratec, hskip, hbelow]
  split <;> simp_all

/-- C10 witness -/
theorem pre_skip_defensive_witness :
    312 - scenarioDecoder.samples_decoded_total < 960 ∧
    (apply_pre_skip scenarioDecoder [] 960 2).1 = .ok :=
  pre_skip_defensive_branch_unreachable scenarioDecoder
    (parse_opus_head scenarioHeadPacket).2 [] 960 2 312 rfl rfl (by decide) (by decide)
    (by decide) (by decide) (by decide)

/-- C3 -/
theorem granule_position_rules (st : Decoder) (g : Int) (decoded : Nat)
    (is_eos is_last : Bool) (faps0 : Int)
    (hrange : -(2 ^ 63) ≤ g ∧ g < 2 ^ 63)
    (hfaps0 : faps0 = (if st.first_audio_page_samples = -1 ∧ st.last_granule_position = 0
        then 0 else st.first_audio_page_samples)) :
    (g ≤ 0 → validate_granule_position st g decoded is_eos is_last = (.ok, st)) ∧
    (0 < g → 0 < st.last_granule_position → g < st.last_granule_position →
      (validate_granule_position st g decoded is_eos is_last).1 = .inputInvalid) ∧
    (0 < g → 0 ≤ faps0 → is_last = true → is_eos = false → g < faps0 + decoded →
      (validate_granule_position st g decoded is_eos is_last).1 = .inputInvalid) ∧
    (0 < g → is_eos = true →
      (st.last_granule_position ≤ 0 ∨ st.last_granule_position ≤ g) →
      (validate_granule_position st g decoded is_eos is_last).1 = .ok ∧
      (validate_granule_position st g decoded is_eos is_last).2.last_granule_position = g) := by
  obtain ⟨hlo, hhi⟩ := hrange
  have hu : 0 < g → (0 < g ∧ uint64_of_int64 g ≠ 2 ^ 64 - 1) := fun hgpos =>
    ⟨hgpos, by simp only [uint64_of_int64]; omega⟩
  refine ⟨?_, ?_, ?_, ?_⟩
  · intro hg
    have hc : ¬ (0 < g ∧ uint64_of_int64 g ≠ 2 ^ 64 - 1) := fun h => absurd h.1 (by omega)
    unfold validate_granule_position
    rw [if_neg hc]
  · intro hg hlast hdec
    simp only [validate_granule_position, finish_granule]
    rw [if_pos (hu hg)]
    split_ifs <;> simp_all
  · intro hg hfz hl he hlt
    subst hl
    subst he
    simp only [validate_granule_position, finish_granule]
    rw [if_pos (hu hg)]
    split_ifs <;> simp_all
  · intro hg he hmono
    subst he
    simp only [validate_granule_position, finish_granule]
    rw [if_pos (hu hg)]
    split_ifs <;> simp_all <;> omega

/-- C3 witness -/
theorem granule_position_rules_witness :
    (validate_granule_position
        { mkDecoder false 48000 0 with state := .decoding, last_granule_position := 2 }
        1 960 false false).1 = .inputInvalid :=
  (granule_position_rules
      { mkDecoder false 48000 0 with state := .decoding, last_granule_position := 2 }
      1 960 false false (-1) (by decide) (by decide)).2.1
    (by decide) (by decide) (by decide)

/-- Page tracking never touches the end-of-stream latch. -/
theorem update_page_tracking_eos (st : Decoder) (l p : Bool) :
    (update_page_tracking st l p).eos_seen = st.eos_seen := by
  unfold update_page_tracking
  split <;> rfl

/-- Granule validation never touches the end-of-stream latch. -/
theorem validate_granule_position_eos (st : Decoder) (g : Int) (d : Nat) (e l : Bool) :
    ((validate_granule_position st g d e l).2).eos_seen = st.eos_seen := by
  simp only [validate_granule_position, finish_granule]
  split_ifs <;> rfl

/-- Pre-skip trimming never touches the end-of-stream latch. -/
theorem apply_pre_skip_eos (st : Decoder) (out : List Int) (d ch : Nat) :
    ((apply_pre_skip st out d ch).2.1).eos_seen = st.eos_seen := by
  simp only [apply_pre_skip]
  split_ifs <;> rfl

/-- Processing a packet that carries the EOS flag latches `eos_seen_`,
whatever else happens to the packet. -/
theorem handle_audio_packet_sets_eos (st : Decoder) (len : Nat) (g : Int) (l : Bool)
    (out : List Int) (osize : Nat) (co : CodecOracle) (pe : Bool) :
    ((handle_audio_packet st len g true l out osize co pe).st).eos_seen = true := by
  simp only [handle_audio_packet, if_true, ite_true]
  split_ifs <;>
    simp [update_page_tracking_eos, validate_granule_position_eos, apply_pre_skip_eos]
/-- C8 -/
theorem continued_flag_cross_check (st : Decoder) (pkt : OggPacket) (output : List Int)
    (output_size : Nat) (pageFlag prevEnded createFails : Bool) (co : CodecOracle)
    (hcnt : st.packets_on_current_page < 256) :
    (st.packets_on_current_page = 0 → pageFlag ≠ st.expect_continued_packet →
      process_packet st pkt output output_size pageFlag prevEnded createFails co =
        ⟨.inputInvalid, st, output, 0⟩) ∧
    (st.packets_on_current_page ≠ 0 → ∀ pf1 pf2,
      process_packet st pkt output output_size pf1 prevEnded createFails co =
      process_packet st pkt output output_size pf2 prevEnded createFails co) ∧
    ((update_page_tracking st true prevEnded).packets_on_current_page = 0 ∧
      (update_page_tracking st true prevEnded).expect_continued_packet = prevEnded) ∧
    (st.packets_on_current_page ≠ 255 →
      (update_page_tracking st false prevEnded).packets_on_current_page =
        st.packets_on_current_page + 1 ∧
      (update_page_tracking st false prevEnded).packets_on_current_page ≠ 0 ∧
      (update_page_tracking st false prevEnded).expect_continued_packet =
        st.expect_continued_packet) := by
  refine ⟨?_, ?_, ?_, ?_⟩
  · intro h0 hne
    simp [process_packet, h0, hne]
  · intro h0 pf1 pf2
    simp [process_packet, h0]
  · simp [update_page_tracking]
  · intro h255
    have hmod : (st.packets_on_current_page + 1) % 256 = st.packets_on_current_page + 1 := by
      omega
    simp [update_page_tracking, hmod]

/-- C8 witness -/
theorem continued_flag_cross_check_witness :
    process_packet cexDecoder cexPacketNoEos [] 0 true false false cexOracle =
      ⟨.inputInvalid, cexDecoder, [], 0⟩ :=
  (continued_flag_cross_check cexDecoder cexPacketNoEos [] 0 true false false cexOracle
      (by decide)).1 (by decide) (by decide)

/-- C9 amended -/
theorem is_initialized_iff_decoding (st : Decoder) (pd : List Nat) (g : Int)
    (bos last cf prevEnded : Bool) :
    (∀ r st1, handle_opus_head_packet st pd g bos last cf prevEnded = (r, st1) →
      r = .ok → st1.state = .expectOpusTags ∧ st1.codec ≠ .noCodec ∧
        (parse_opus_head pd).1 = .ok ∧ st1.opus_head = some (parse_opus_head pd).2 ∧
        Decoder.is_initialized st1 = false) ∧
    (∀ r st1, handle_opus_tags_packet st pd g last prevEnded = (r, st1) →
      r = .ok → st1.state = .decoding ∧ Decoder.is_initialized st1 = true) ∧
    (Decoder.is_initialized st = true ↔ st.state = .decoding) := by
  refine ⟨?_, ?_, ?_⟩
  · intro r st1 heq hr
    subst hr
    simp only [handle_opus_head_packet] at heq
    split_ifs at heq <;>
      simp_all [Decoder.is_initialized, update_page_tracking] <;>
        (try subst heq) <;> simp_all [Decoder.is_initialized]
  · intro r st1 heq hr
    subst hr
    simp only [handle_opus_tags_packet] at heq
    split_ifs at heq <;> simp_all [Decoder.is_initialized] <;>
      (try subst heq) <;> simp_all [Decoder.is_initialized]
  · simp [Decoder.is_initialized]

set_option maxRecDepth 4000 in
/-- C9 counterexample -/
theorem is_initialized_counterexample :
    (decode (mkDecoder false 48000 0) false false [] 0
        (.packet ⟨scenarioHeadPacket, 0, true, false, true⟩ 19) false false false
        cexOracle).result = .ok ∧
    (decode (mkDecoder false 48000 0) false false [] 0
        (.packet ⟨scenarioHeadPacket, 0, true, false, true⟩ 19) false false false
        cexOracle).st.has_seen_opus_head = true ∧
    (decode (mkDecoder false 48000 0) false false [] 0
        (.packet ⟨scenarioHeadPacket, 0, true, false, true⟩ 19) false false false
        cexOracle).st.opus_head = some (parse_opus_head scenarioHeadPacket).2 ∧
    (decode (mkDecoder false 48000 0) false false [] 0
        (.packet ⟨scenarioHeadPacket, 0, true, false, true⟩ 19) false false false
        cexOracle).st.codec = .monoCodec ∧
    Decoder.is_initialized
      (decode (mkDecoder false 48000 0) false false [] 0
        (.packet ⟨scenarioHeadPacket, 0, true, false, true⟩ 19) false false false
        cexOracle).st = false := by
  decide

/-- C9 witness -/
theorem is_initialized_iff_decoding_witness :
    ((handle_opus_head_packet (mkDecoder false 48000 0) scenarioHeadPacket 0 true true
        false false).2).state = DecState.expectOpusTags ∧
    ((handle_opus_head_packet (mkDecoder false 48000 0) scenarioHeadPacket 0 true true
        false false).2).codec ≠ .noCodec ∧
    (parse_opus_head scenarioHeadPacket).1 = .ok ∧
    ((handle_opus_head_packet (mkDecoder false 48000 0) scenarioHeadPacket 0 true true
        false false).2).opus_head = some (parse_opus_head scenarioHeadPacket).2 ∧
    Decoder.is_initialized
      ((handle_opus_head_packet (mkDecoder false 48000 0) scenarioHeadPacket 0 true true
        false false).2) = false :=
  (is_initialized_iff_decoding (mkDecoder false 48000 0) scenarioHeadPacket 0 true true
    false false).1 _ _ rfl (by decide)

/-- C4 amended -/
theorem eos_latch_behaviour (st : Decoder) (output : List Int)
    (heos : st.eos_seen = true) :
    (∀ output_size resp pageFlag prevEnded createFails co, output_size ≠ 0 →
      decode st false false output output_size resp pageFlag prevEnded createFails co =
        ⟨.inputInvalid, st, 0, 0, output⟩) ∧
    (st.state = .decoding → ∀ resp pageFlag prevEnded createFails co,
      decode st false false output 0 resp pageFlag prevEnded createFails co =
        ⟨.outputBufferTooSmall, st, 0, 0, output⟩) ∧
    (Decoder.reset st).eos_seen = false ∧
    (∀ st2 len g l out osize co pe,
      ((handle_audio_packet st2 len g true l out osize co pe).st).eos_seen = true) := by
  refine ⟨?_, ?_, ?_, ?_⟩
  · intro output_size resp pageFlag prevEnded createFails co hsize
    simp [decode, heos, hsize]
  · intro hdec resp pageFlag prevEnded createFails co
    simp [decode, heos, hdec]
  · simp [Decoder.reset]
  · intro st2 len g l out osize co pe
    exact handle_audio_packet_sets_eos st2 len g l out osize co pe

/-- C4 counterexample -/
theorem eos_latch_counterexample :
    ((decode cexDecoder false false [] 4000 (.packet cexPacketEos 5) false false false
        cexOracle).st).eos_seen = true ∧
    (decode
        (decode cexDecoder false false [] 4000 (.packet cexPacketEos 5) false false false
          cexOracle).st
        false false [] 0 (.needMoreData 0) false false false cexOracle).result
      = .outputBufferTooSmall := by
  decide

/-- C4 witness -/
theorem eos_latch_behaviour_witness :
    decode { cexDecoder with eos_seen := true } false false [] 100 (.needMoreData 0)
        false false false cexOracle =
      ⟨.inputInvalid, { cexDecoder with eos_seen := true }, 0, 0, []⟩ :=
  (eos_latch_behaviour { cexDecoder with eos_seen := true } [] rfl).1 100
    (.needMoreData 0) false false false cexOracle (by decide)

/-- C1 amended -/
theorem buffer_too_small_retry (st : Decoder) (output : List Int) (output_size : Nat)
    (pkt : OggPacket) (n : Nat) (pageFlag prevEnded createFails : Bool) (co : CodecOracle)
    (hstate : st.state = .decoding) (heos : st.eos_seen = false)
    (hpkt_eos : pkt.is_eos = false)
    (hlen : pkt.data.length ≠ 0) (hlen2 : pkt.data.length ≤ max_opus_packet_size)
    (hflag : st.packets_on_current_page = 0 → pageFlag = st.expect_continued_packet)
    (hnb : 0 < co.nb_samples) (hsize : 0 < output_size)
    (hsmall : output_size < co.nb_samples.toNat * st.output_channels * 2) :
    decode st false false output output_size (.packet pkt n) pageFlag prevEnded createFails co =
      ⟨.outputBufferTooSmall,
       { st with
         last_required_buffer_bytes := co.nb_samples.toNat * st.output_channels * 2 },
       n, 0, output⟩ ∧
    (∀ output_size2, 0 < output_size2 →
      decode
          { st with
            last_required_buffer_bytes := co.nb_samples.toNat * st.output_channels * 2 }
          false false output output_size2 (.packet pkt n) pageFlag prevEnded createFails co =
        decode st false false output output_size2 (.packet pkt n)
          pageFlag prevEnded createFails co) := by
  have hnoflag : ¬ (st.packets_on_current_page = 0 ∧ pageFlag ≠ st.expect_continued_packet) := by
    intro h
    exact h.2 (hflag h.1)
  have hsz : output_size ≠ 0 := by omega
  constructor
  · simp [decode, process_packet, handle_audio_packet, hstate, heos, hpkt_eos, hlen,
      Nat.not_lt.mpr hlen2, hnoflag, hnb, hsmall, hsz]
  · intro output_size2 hsize2
    have hsz2 : output_size2 ≠ 0 := by omega
    obtain ⟨f1, f2, f3, f4, f5, f6, f7, f8, f9, f10, f11, f12, f13, f14, f15, f16,
      f17, f18, f19⟩ := st
    simp only at hstate heos hflag hnoflag hsmall
    subst hstate
    subst heos
    simp [decode, process_packet, handle_audio_packet, hpkt_eos, hlen,
      Nat.not_lt.mpr hlen2, hnoflag, hnb, hsz2]

/-- C1 counterexample -/
theorem buffer_too_small_counterexample :
    (decode cexDecoder false false [] 10 (.packet cexPacketEos 5) false false false
        cexOracle).result = .outputBufferTooSmall ∧
    (decode cexDecoder false false [] 10 (.packet cexPacketEos 5) false false false
        cexOracle).bytes_consumed = 5 ∧
    cexDecoder.eos_seen = false ∧
    (decode cexDecoder false false [] 10 (.packet cexPacketEos 5) false false false
        cexOracle).st.eos_seen = true ∧
    (decode
        (decode cexDecoder false false [] 10 (.packet cexPacketEos 5) false false false
          cexOracle).st
        false false [] 4000 (.packet cexPacketEos 5) false false false cexOracle).result
      = .inputInvalid ∧
    (decode cexDecoder false false [] 4000 (.packet cexPacketEos 5) false false false
        cexOracle).result = .ok := by
  decide

/-- C1 witness -/
theorem buffer_too_small_retry_witness :
    decode cexDecoder false false [] 10 (.packet cexPacketNoEos 5) false false false
        cexOracle =
      ⟨.outputBufferTooSmall,
       { cexDecoder with last_required_buffer_bytes := 3840 }, 5, 0, []⟩ :=
  (buffer_too_small_retry cexDecoder [] 10 cexPacketNoEos 5 false false false cexOracle
    rfl rfl rfl (by decide) (by decide) (fun _ => rfl) (by decide) (by decide)
    (by decide)).1

end MicroOpus
